import Mathlib

/-!
Shallow embedding of the constraint-assembly and auxiliary-dynamics core of
the bioptim repository.

Part 1 models `src/biorbd_optim/constraints.py`: the shared constraint
vector `ocp.g` with its paired bound sequences `ocp.g_bounds.min` /
`ocp.g_bounds.max`, the per-type constraint builders, the dispatch loop
`Constraint.add_constraints`, and `Constraint.continuity_constraint`.

Symbolic CasADi residual expressions are embedded as their values on a
concrete numeric evaluation (entries in `ℚ`); the external rigid-body model
(biorbd) and the forward-dynamics-with-contact evaluation are collaborator
functions carried in the phase record, exactly as the spec declares them
external interfaces.  Python exceptions are embedded as an `Option String`
error component threaded next to the mutated state (Python mutates `ocp`
in place, so appends made before a raise survive; the embedding keeps the
state at raise time).
-/

namespace BioptimSpec

/-- Bound entries: the code appends `0`, finite boundaries, `inf` and `-inf`
(from `math.inf`) into `g_bounds.min` / `g_bounds.max`. -/
inductive Bnd where
  | negInf : Bnd
  | fin (q : ℚ) : Bnd
  | posInf : Bnd
deriving DecidableEq, Repr

/-- The paired bound sequences `ocp.g_bounds.min` and `ocp.g_bounds.max`. -/
structure GBounds where
  min : List Bnd
  max : List Bnd
deriving DecidableEq, Repr

/-- The mutable part of the optimization-problem object that the builders
touch: the residual vector `ocp.g` and its bounds `ocp.g_bounds`. -/
structure OCPAcc where
  g : List ℚ
  g_bounds : GBounds
deriving DecidableEq, Repr

/-- A 3-vector, the shape of a biorbd marker position and of the z-y-x Euler
decomposition (`constraint.rows() = 3` in those builders). -/
structure Vec3 where
  x : ℚ
  y : ℚ
  z : ℚ
deriving DecidableEq, Repr, Inhabited

def Vec3.sub (a b : Vec3) : Vec3 := ⟨a.x - b.x, a.y - b.y, a.z - b.z⟩

def Vec3.toList (a : Vec3) : List ℚ := [a.x, a.y, a.z]

/-- The rigid-body model collaborator (biorbd): count queries used for
range-checking and the geometric queries the builders consume.
`alignRTEuler q seg rt` stands for
`Rotation_toEulerAngles(globalJCS(q,seg).rot().transpose() * RT(q,rt).rot(), "zyx")`
and `markerInSegmentFrame q m seg` for the marker expressed in the segment's
local frame (`applyRT` of the transposed JCS), both external evaluations. -/
structure BiorbdModel where
  nbMarkers : ℕ
  nbSegment : ℕ
  nbRTs : ℕ
  marker : List ℚ → ℕ → Vec3
  alignRTEuler : List ℚ → ℕ → ℕ → Vec3
  markerInSegmentFrame : List ℚ → ℕ → ℕ → Vec3
deriving Inhabited

/-- Per-phase context (`nlp` dict): shooting-interval count `ns`, state size
`nx`, the model handle, the coordinate mapping (`q_mapping.reduce.len` and
`q_mapping.expand.map`), the per-node state/control columns `X`/`U`
(columns of the symbolic trajectories, as `horzsplit` produces them), the
integrated dynamics call `x0, p ↦ xf`, and the contact-force evaluation
`Dynamics.forces_from_forward_dynamics_with_contact` used by the
contact-force and non-slipping builders. -/
structure NLPhase where
  ns : ℕ
  nx : ℕ
  model : BiorbdModel
  reduceLen : ℕ
  expandMap : List ℚ → List ℚ
  X : List (List ℚ)
  U : List (List ℚ)
  dynamics : List ℚ → List ℚ → List ℚ
  contactForces : List ℚ → List ℚ → List ℚ
deriving Inhabited

/-- Row count of a column-split matrix: the number of rows of the symbolic
matrix whose columns the list holds (`UX.rows()`). -/
def rows (M : List (List ℚ)) : ℕ := (M.headD []).length

/-- Python numeric-ish values, enough to embed the
`isinstance(coef, (int, float))` check of `__proportional_variable`:
Python `bool` is a subtype of `int`, so `True`/`False` pass the check. -/
inductive PyVal where
  | int (n : ℤ) : PyVal
  | float (q : ℚ) : PyVal
  | bool (b : Bool) : PyVal
  | str (s : String) : PyVal
deriving DecidableEq, Repr

/-- Python `isinstance(v, (int, float))`; `bool` is a subclass of `int`. -/
def PyVal.isinstance_int_float : PyVal → Bool
  | .int _ => true
  | .float _ => true
  | .bool _ => true
  | .str _ => false

/-- Numeric value of a PyVal when used in arithmetic (`True == 1`,
`False == 0` in Python arithmetic). -/
def PyVal.toRat : PyVal → ℚ
  | .int n => (n : ℚ)
  | .float q => q
  | .bool b => if b then 1 else 0
  | .str _ => 0

/-- Modelled from the spec: `Goal._check_idx` lives in `goal.py`, which is
not under `src/`; per the spec, index-bound parameters are range-checked
against the model's reported counts before use and an out-of-range index
raises immediately with the offending index named. -/
def check_idx (name : String) (idx : List ℕ) (bound : ℕ) : Option String :=
  if idx.all (fun i => i < bound) then none
  else some ("Wrong range of " ++ name)

/-- `Constraint.__markers_to_match`: per node column, the 3-vector residual
`marker(q, first) - marker(q, second)` with `q` the expanded head `nq`
components of the column, and three `(0, 0)` bound pairs. -/
def markers_to_match (ocp : OCPAcc) (nlp : NLPhase) (X : List (List ℚ))
    (first_marker second_marker : ℕ) : OCPAcc × Option String :=
  match check_idx "marker" [first_marker, second_marker] nlp.model.nbMarkers with
  | some e => (ocp, some e)
  | none =>
    let nq := nlp.reduceLen
    (X.foldl (fun o x =>
      let q := nlp.expandMap (x.take nq)
      let marker1 := nlp.model.marker q first_marker
      let marker2 := nlp.model.marker q second_marker
      { g := o.g ++ (Vec3.sub marker1 marker2).toList,
        g_bounds := { min := o.g_bounds.min ++ List.replicate 3 (Bnd.fin 0),
                      max := o.g_bounds.max ++ List.replicate 3 (Bnd.fin 0) } }) ocp,
     none)

/-- `Constraint.__align_with_custom_rt`: per node column, the z-y-x Euler
residual of the segment/RT alignment, with one `(0, 0)` bound pair per row
(`constraint.rows()`, here 3). -/
def align_with_custom_rt (ocp : OCPAcc) (nlp : NLPhase) (X : List (List ℚ))
    (segment rt : ℕ) : OCPAcc × Option String :=
  match check_idx "segment" [segment] nlp.model.nbSegment with
  | some e => (ocp, some e)
  | none =>
    match check_idx "rt" [rt] nlp.model.nbRTs with
    | some e => (ocp, some e)
    | none =>
      let nq := nlp.reduceLen
      (X.foldl (fun o x =>
        let q := nlp.expandMap (x.take nq)
        let constraint := nlp.model.alignRTEuler q segment rt
        { g := o.g ++ constraint.toList,
          g_bounds := { min := o.g_bounds.min ++ List.replicate 3 (Bnd.fin 0),
                        max := o.g_bounds.max ++ List.replicate 3 (Bnd.fin 0) } }) ocp,
       none)

/-- `Constraint.__projection_on_plane_constraint`: per node column and per
requested axis, one scalar residual (the marker coordinate in the segment
frame along that axis) with one `(0, 0)` bound pair. -/
def projection_on_plane_constraint (ocp : OCPAcc) (nlp : NLPhase)
    (X : List (List ℚ)) (marker segment : ℕ) (axes : List ℕ) : OCPAcc :=
  X.foldl (fun o x =>
    let q := nlp.expandMap (x.take nlp.reduceLen)
    let n_seg := (nlp.model.markerInSegmentFrame q marker segment).toList
    axes.foldl (fun o2 axe =>
      { g := o2.g ++ [n_seg.getD axe 0],
        g_bounds := { min := o2.g_bounds.min ++ [Bnd.fin 0],
                      max := o2.g_bounds.max ++ [Bnd.fin 0] } }) o) ocp

/-- Modelled from the spec: `Goal._check_and_fill_index` is in `goal.py`,
not under `src/`; an empty selection defaults to all indices, a nonempty one
is range-checked. -/
def check_and_fill_index (idx : List ℕ) (bound : ℕ) (name : String) :
    (List ℕ) × Option String :=
  if idx = [] then (List.range bound, none)
  else if idx.all (fun i => i < bound) then (idx, none)
  else ([], some ("Wrong range of " ++ name))

/-- Modelled from the spec: `Goal._check_tracking_data_size` is in
`goal.py`, not under `src/`; reference-tracking data must be shaped
`[n_nodes, n_selected]` and is validated before any residual is appended. -/
def check_tracking_data_size (data : List (List ℚ)) (shape : ℕ × ℕ) :
    Option String :=
  if data.length = shape.1 ∧ data.all (fun r => r.length = shape.2) then none
  else some "data_to_track has wrong size"

/-- `Constraint.__q_to_match`: per node column, the residual block
`v[states_idx] - data_to_track[t[idx], states_idx]` with one `(0, 0)` bound
pair per selected state. -/
def q_to_match (ocp : OCPAcc) (nlp : NLPhase) (t : List ℕ)
    (x : List (List ℚ)) (data_to_track : List (List ℚ))
    (states_idx : List ℕ) : OCPAcc × Option String :=
  match check_and_fill_index states_idx nlp.nx "state_idx" with
  | (_, some e) => (ocp, some e)
  | (idxs, none) =>
    match check_tracking_data_size data_to_track (nlp.ns + 1, idxs.length) with
    | some e => (ocp, some e)
    | none =>
      ((List.range x.length).foldl (fun o k =>
        let v := x.getD k []
        let row := (data_to_track.getD (t.getD k 0) [])
        { g := o.g ++ idxs.map (fun i => v.getD i 0 - row.getD i 0),
          g_bounds := { min := o.g_bounds.min ++ List.replicate idxs.length (Bnd.fin 0),
                        max := o.g_bounds.max ++ List.replicate idxs.length (Bnd.fin 0) } })
        ocp,
       none)

/-- `Constraint.__proportional_variable`: range-check the two DOF indices
against `UX.rows()`, reject a coefficient that is not an `int`/`float`
instance, then per column append `v[first_dof] - coef * v[second_dof]` with
one `(0, 0)` bound pair. -/
def proportional_variable (ocp : OCPAcc) (nlp : NLPhase)
    (UX : List (List ℚ)) (first_dof second_dof : ℕ) (coef : PyVal) :
    OCPAcc × Option String :=
  match check_idx "dof" [first_dof, second_dof] (rows UX) with
  | some e => (ocp, some e)
  | none =>
    if ¬ coef.isinstance_int_float then
      (ocp, some "coef must be an int or a float")
    else
      (UX.foldl (fun o v =>
        let v' := nlp.expandMap v
        { g := o.g ++ [v'.getD first_dof 0 - coef.toRat * v'.getD second_dof 0],
          g_bounds := { min := o.g_bounds.min ++ [Bnd.fin 0],
                        max := o.g_bounds.max ++ [Bnd.fin 0] } }) ocp,
       none)

/-- `Constraint.__contact_force_inequality`: one residual per control node,
the `idx`-th contact-force component; with `"GREATER_THAN"` it gets the
bound pair `(boundary, +∞)`, with `"LESSER_THAN"` the pair `(-∞, boundary)`
(and any other tag string would append no bounds at all, as in the
if/elif of the source). -/
def contact_force_inequality (ocp : OCPAcc) (nlp : NLPhase)
    (X U : List (List ℚ)) (ty : String) (idx : ℕ) (boundary : ℚ) : OCPAcc :=
  (List.range U.length).foldl (fun o i =>
    let g' := o.g ++ [(nlp.contactForces (X.getD i []) (U.getD i [])).getD idx 0]
    if ty = "GREATER_THAN" then
      { g := g',
        g_bounds := { min := o.g_bounds.min ++ [Bnd.fin boundary],
                      max := o.g_bounds.max ++ [Bnd.posInf] } }
    else if ty = "LESSER_THAN" then
      { g := g',
        g_bounds := { min := o.g_bounds.min ++ [Bnd.negInf],
                      max := o.g_bounds.max ++ [Bnd.fin boundary] } }
    else { o with g := g' }) ocp

/-- `Constraint.__non_slipping`: per control node, accumulate the
contact-force components; as in the source, BOTH the loop over
`normal_component_idx` and the loop over `tangential_component_idx` add into
the `normal_contact_force` accumulator, leaving `tangential_contact_force`
at `0`; then append the two residuals
`mu * normal_contact_force + tangential_contact_force` and
`mu * normal_contact_force - tangential_contact_force`, each bounded
`(0, +∞)`. -/
def non_slipping (ocp : OCPAcc) (nlp : NLPhase) (X U : List (List ℚ))
    (normal_component_idx tangential_component_idx : List ℕ)
    (static_friction_coefficient : ℚ) : OCPAcc :=
  let mu := static_friction_coefficient
  (List.range U.length).foldl (fun o i =>
    let cs := nlp.contactForces (X.getD i []) (U.getD i [])
    let normal_contact_force₀ :=
      (normal_component_idx.map (fun idx => cs.getD idx 0)).sum
    let normal_contact_force :=
      normal_contact_force₀ + (tangential_component_idx.map (fun idx => cs.getD idx 0)).sum
    let tangential_contact_force : ℚ := 0
    { g := o.g ++ [mu * normal_contact_force + tangential_contact_force,
                   mu * normal_contact_force - tangential_contact_force],
      g_bounds := { min := o.g_bounds.min ++ [Bnd.fin 0, Bnd.fin 0],
                    max := o.g_bounds.max ++ [Bnd.posInf, Bnd.posInf] } }) ocp

/-- Modelled from the spec: the node-selector enum (`Instant`, from
`enums.py`, not under `src/`): single node, ALL nodes, ALL-SHOOTING nodes,
START, END.  A bare integer node index compares equal to `nlp["ns"]` in the
terminal-node guards, so it is a constructor here. -/
inductive Instant where
  | START : Instant
  | END : Instant
  | ALL : Instant
  | ALL_SHOOTING : Instant
  | node (k : ℕ) : Instant
deriving DecidableEq, Repr

/-- Modelled from the spec: `Goal._get_instant` is in `goal.py`, not under
`src/`; it resolves the node selector to the time indices and the state and
control columns at those nodes (the phase's symbolic trajectories split per
node). -/
def get_instant (nlp : NLPhase) (instant : Instant) :
    List ℕ × List (List ℚ) × List (List ℚ) :=
  match instant with
  | .START => ([0], [nlp.X.headD []], [nlp.U.headD []])
  | .END => ([nlp.ns], [nlp.X.getLastD []], [nlp.U.getLastD []])
  | .ALL => (List.range (nlp.ns + 1), nlp.X, nlp.U)
  | .ALL_SHOOTING => (List.range nlp.ns, nlp.X.take nlp.ns, nlp.U.take nlp.ns)
  | .node k => ([k], [nlp.X.getD k []], [nlp.U.getD k []])

/-- A constraint descriptor: the closed set of type tags of
`Constraint.Type`, each with its node selector (`instant`) and its
type-specific parameters, as the user-facing layer declares them. -/
inductive Descriptor where
  | MARKERS_TO_MATCH (instant : Instant) (first_marker second_marker : ℕ)
  | ALIGN_WITH_CUSTOM_RT (instant : Instant) (segment rt : ℕ)
  | PROJECTION_ON_PLANE (instant : Instant) (marker segment : ℕ) (axes : List ℕ)
  | TRACK_Q (instant : Instant) (data_to_track : List (List ℚ)) (states_idx : List ℕ)
  | PROPORTIONAL_Q (instant : Instant) (first_dof second_dof : ℕ) (coef : PyVal)
  | PROPORTIONAL_CONTROL (instant : Instant) (first_dof second_dof : ℕ) (coef : PyVal)
  | CONTACT_FORCE_GREATER_THAN (instant : Instant) (idx : ℕ) (boundary : ℚ)
  | CONTACT_FORCE_LESSER_THAN (instant : Instant) (idx : ℕ) (boundary : ℚ)
  | NON_SLIPPING (instant : Instant)
      (normal_component_idx tangential_component_idx : List ℕ)
      (static_friction_coefficient : ℚ)
  | CUSTOM (instant : Instant)
      (func : OCPAcc → List (List ℚ) → List (List ℚ) → OCPAcc × Option String)

def Descriptor.instant : Descriptor → Instant
  | .MARKERS_TO_MATCH i _ _ => i
  | .ALIGN_WITH_CUSTOM_RT i _ _ => i
  | .PROJECTION_ON_PLANE i _ _ _ => i
  | .TRACK_Q i _ _ => i
  | .PROPORTIONAL_Q i _ _ _ => i
  | .PROPORTIONAL_CONTROL i _ _ _ => i
  | .CONTACT_FORCE_GREATER_THAN i _ _ => i
  | .CONTACT_FORCE_LESSER_THAN i _ _ => i
  | .NON_SLIPPING i _ _ _ => i
  | .CUSTOM i _ => i

/-- The guard `instant == Instant.END or instant == nlp["ns"]` used by the
control-dependent branches of `Constraint.add_constraints`. -/
def isLastNode (instant : Instant) (ns : ℕ) : Bool :=
  instant == Instant.END || instant == Instant.node ns

/-- One iteration of the dispatch loop of `Constraint.add_constraints`:
resolve the node selector, strip `instant`/`type` (here: the payload is
already separated) and branch on the type tag to the matching private
builder; the control-dependent types reject the terminal node with
`RuntimeError("No control u at last node")` before calling their builder. -/
def add_constraint_dispatch (ocp : OCPAcc) (nlp : NLPhase)
    (constraint : Descriptor) : OCPAcc × Option String :=
  let txu := get_instant nlp constraint.instant
  let t := txu.1
  let x := txu.2.1
  let u := txu.2.2
  match constraint with
  | .MARKERS_TO_MATCH _ first_marker second_marker =>
    markers_to_match ocp nlp x first_marker second_marker
  | .ALIGN_WITH_CUSTOM_RT _ segment rt =>
    align_with_custom_rt ocp nlp x segment rt
  | .PROJECTION_ON_PLANE _ marker segment axes =>
    (projection_on_plane_constraint ocp nlp x marker segment axes, none)
  | .TRACK_Q _ data_to_track states_idx =>
    q_to_match ocp nlp t x data_to_track states_idx
  | .PROPORTIONAL_Q _ first_dof second_dof coef =>
    proportional_variable ocp nlp x first_dof second_dof coef
  | .PROPORTIONAL_CONTROL instant first_dof second_dof coef =>
    if isLastNode instant nlp.ns then (ocp, some "No control u at last node")
    else proportional_variable ocp nlp u first_dof second_dof coef
  | .CONTACT_FORCE_GREATER_THAN instant idx boundary =>
    if isLastNode instant nlp.ns then (ocp, some "No control u at last node")
    else (contact_force_inequality ocp nlp x u "GREATER_THAN" idx boundary, none)
  | .CONTACT_FORCE_LESSER_THAN instant idx boundary =>
    if isLastNode instant nlp.ns then (ocp, some "No control u at last node")
    else (contact_force_inequality ocp nlp x u "LESSER_THAN" idx boundary, none)
  | .NON_SLIPPING instant normal_component_idx tangential_component_idx mu =>
    if isLastNode instant nlp.ns then (ocp, some "No control u at last node")
    else (non_slipping ocp nlp x u normal_component_idx tangential_component_idx mu, none)
  | .CUSTOM _ func => func ocp x u

/-- `Constraint.add_constraints`: a `None` descriptor list is a legitimate
empty case; otherwise every descriptor is dispatched in order, a raise
stopping the loop with the state mutated so far (the descriptor list is a
field of the `nlp` dict in the source; it is passed alongside here). -/
def add_constraints (ocp : OCPAcc) (nlp : NLPhase)
    (constraints : Option (List Descriptor)) : OCPAcc × Option String :=
  match constraints with
  | none => (ocp, none)
  | some cs =>
    cs.foldl (fun acc c =>
      match acc with
      | (o, some e) => (o, some e)
      | (o, none) => add_constraint_dispatch o nlp c) (ocp, none)

/-- The optimization-problem object as `continuity_constraint` reads it:
the phase list and the cyclic flag (the mutable `g`/`g_bounds` triple is the
`OCPAcc` state threaded separately). -/
structure OCPDef where
  nlp : List NLPhase
  is_cyclic_constraint : Bool

/-- Intra-phase pass of `Constraint.continuity_constraint` for one phase:
for each shooting interval `k`, the residual
`dynamics(x0 = X[k], p = U[k]) - X[k+1]` with `nx` bound pairs `(0, 0)`. -/
def intra_phase_continuity (nlp : NLPhase) (ocp : OCPAcc) : OCPAcc :=
  (List.range nlp.ns).foldl (fun o k =>
    let end_node := nlp.dynamics (nlp.X.getD k []) (nlp.U.getD k [])
    { g := o.g ++ List.zipWith (· - ·) end_node (nlp.X.getD (k + 1) []),
      g_bounds := { min := o.g_bounds.min ++ List.replicate nlp.nx (Bnd.fin 0),
                    max := o.g_bounds.max ++ List.replicate nlp.nx (Bnd.fin 0) } }) ocp

/-- Inter-phase pass of `Constraint.continuity_constraint`: for each
adjacent phase pair, first the `nx` equality check
(`RuntimeError` on mismatch, raised before anything is appended for that
pair), then the residual `X_i[-1] - X_{i+1}[0]` with `nx_i` bound pairs
`(0, 0)`. -/
def inter_phase_continuity : List NLPhase → OCPAcc → OCPAcc × Option String
  | [], o => (o, none)
  | [_], o => (o, none)
  | a :: b :: rest, o =>
    if a.nx ≠ b.nx then
      (o, some "Phase constraints without same nx is not supported yet")
    else
      inter_phase_continuity (b :: rest)
        { g := o.g ++ List.zipWith (· - ·) (a.X.getLastD []) (b.X.headD []),
          g_bounds := { min := o.g_bounds.min ++ List.replicate a.nx (Bnd.fin 0),
                        max := o.g_bounds.max ++ List.replicate a.nx (Bnd.fin 0) } }

/-- `Constraint.continuity_constraint`: the intra-phase pass over every
phase, then the inter-phase pass, then (when `ocp.is_cyclic_constraint`)
the cyclic pass: after the `nx` equality check between first and last
phase, the residual `X_last[-1][1:] - X_0[0][1:]` is appended together
with `range(ocp.nlp[0]["nx"])` bound pairs `(0, 0)` — the bound loop runs
`nx` times while the residual has `nx - 1` components, exactly as in the
source. -/
def continuity_constraint (ocp : OCPDef) (acc : OCPAcc) : OCPAcc × Option String :=
  let acc1 := ocp.nlp.foldl (fun o nlp => intra_phase_continuity nlp o) acc
  match inter_phase_continuity ocp.nlp acc1 with
  | (o, some e) => (o, some e)
  | (acc2, none) =>
    if ocp.is_cyclic_constraint then
      if (ocp.nlp.headD default).nx ≠ (ocp.nlp.getLastD default).nx then
        (acc2, some "Cyclic constraint without same nx is not supported yet")
      else
        ({ g := acc2.g ++
              List.zipWith (· - ·)
                (((ocp.nlp.getLastD default).X.getLastD []).drop 1)
                (((ocp.nlp.headD default).X.headD []).drop 1),
           g_bounds := { min := acc2.g_bounds.min ++
                            List.replicate (ocp.nlp.headD default).nx (Bnd.fin 0),
                         max := acc2.g_bounds.max ++
                            List.replicate (ocp.nlp.headD default).nx (Bnd.fin 0) } },
         none)
    else (acc2, none)

/-!
Part 2 models `src/bioptim/dynamics/fatigue/fatigue_dynamics.py`: the
auxiliary-dynamics (fatigue) models, the `MultiFatigueModel` aggregator with
its name-or-index-keyed `models` storage and `_convert_to_models_key`
indirection, the single-channel `MultiFatigueInterface`, and the per-phase
registry list `FatigueUniqueList` with its `dynamics()` fold.
-/

/-- Modelled from the spec: the variable kind passed to bounds queries
(`VariableType`, from `misc/enums.py`, not under `src/`). -/
inductive VariableType where
  | STATES : VariableType
  | CONTROLS : VariableType
deriving DecidableEq, Repr, Inhabited

/-- A concrete fatigue Model's capabilities as the aggregator consumes them:
default bounds per variable kind, default initial guess, and the
`dynamics(dxdt, nlp, index, states, controls)` augmentation (`nlp` is an
opaque phase handle here). -/
structure FModel where
  default_bounds : VariableType → List ℚ
  default_initial_guess : List ℚ
  dynamics : List ℚ → ℕ → ℕ → List ℚ → List ℚ → List ℚ
deriving Inhabited

/-- A value of the `models` dict of `MultiFatigueModel`: a single Model for
a truthy suffix key, or (for a falsy key) the whole raw model list, exactly
as `__init__` stores it. -/
abbrev ModelsVal := FModel ⊕ List FModel

/-- The `self.models` storage of `MultiFatigueModel`: a dict (insertion
ordered, here an association list) when the variant declares suffix names,
or the raw flat list when it does not. -/
inductive Models where
  | byName (d : List (String × ModelsVal)) : Models
  | flat (l : List FModel) : Models
deriving Inhabited

/-- Python dict assignment `d[key] = v`: overwrite in place when the key is
present (keeping its position), append otherwise. -/
def dict_insert (d : List (String × ModelsVal)) (key : String) (v : ModelsVal) :
    List (String × ModelsVal) :=
  if d.any (fun p => p.1 == key) then
    d.map (fun p => if p.1 == key then (key, v) else p)
  else d ++ [(key, v)]

/-- The dict-construction loop of `MultiFatigueModel.__init__`:
`for i, key in enumerate(self.suffix()): model_tp[key] = model[i] if key
else model`. -/
def mk_model_tp (d : List (String × ModelsVal)) (suffix : List String)
    (i : ℕ) (model : List FModel) : List (String × ModelsVal) :=
  match suffix with
  | [] => d
  | key :: rest =>
    let d' :=
      if key ≠ "" then dict_insert d key (Sum.inl (model.getD i default))
      else dict_insert d key (Sum.inr model)
    mk_model_tp d' rest (i + 1) model

/-- `MultiFatigueModel.__init__` storage selection: a dict keyed by the
declared suffix names when `self.suffix()` is truthy, the flat model list
otherwise (a bare `FatigueModel` argument is wrapped into a one-element
list before this point). -/
def multi_fatigue_models (suffix : List String) (model : List FModel) : Models :=
  if suffix ≠ [] then .byName (mk_model_tp [] suffix 0 model)
  else .flat model

/-- `MultiFatigueModel._convert_to_models_key`: when the storage is a dict,
`list(self.models.keys())[item]` (an `IndexError` when `item` is out of
range); when it is a flat list, the item itself. -/
def convert_to_models_key (models : Models) (item : ℕ) :
    Except String (String ⊕ ℕ) :=
  match models with
  | .byName d =>
    match (d.map Prod.fst).get? item with
    | some key => .ok (Sum.inl key)
    | none => .error "IndexError: list index out of range"
  | .flat _ => .ok (Sum.inr item)

/-- The aggregator (`MultiFatigueModel`) as the registry consumes it: the
fixed `suffix()` tuple of the variant, the `models` storage, the two flags,
and the `_dynamics_per_suffix` polymorphic hook
(`dxdt, suffix, nlp, index, states, controls ↦ dxdt'`). -/
structure MFAggregator where
  suffix : List String
  models : Models
  state_only : Bool
  split_controls : Bool
  dynPerSuffix : List ℚ → String → ℕ → ℕ → List ℚ → List ℚ → List ℚ
deriving Inhabited

/-- `MultiFatigueModel.dynamics`: fold `_dynamics_per_suffix` over the
sub-channels in the fixed `suffix()` order. -/
def MFAggregator.dynamics (a : MFAggregator) (dxdt : List ℚ) (nlp : ℕ)
    (index : ℕ) (states controls : List ℚ) : List ℚ :=
  a.suffix.foldl (fun d s => a.dynPerSuffix d s nlp index states controls) dxdt

/-- The `suffix()` of `MultiFatigueInterface`: the single channel
`("fatigue",)`. -/
def interface_suffix : List String := ["fatigue"]

/-- `MultiFatigueInterface.default_bounds`: `self.models["fatigue"]
.default_bounds(variable_type)` — the `index` argument is not consulted.
A missing key is a `KeyError`; a list stored under the key (falsy-key
branch of `__init__`) or flat-list storage cannot answer the call. -/
def interface_default_bounds (models : Models) (index : ℕ)
    (variable_type : VariableType) : Except String (List ℚ) :=
  match models with
  | .byName d =>
    match List.lookup "fatigue" d with
    | some (Sum.inl m) => .ok (m.default_bounds variable_type)
    | some (Sum.inr _) => .error "AttributeError: list has no attribute default_bounds"
    | none => .error "KeyError: fatigue"
  | .flat _ => .error "TypeError: list indices must be integers"

/-- `MultiFatigueInterface.default_initial_guess`:
`self.models["fatigue"].default_initial_guess()` — the `index` argument is
not consulted. -/
def interface_default_initial_guess (models : Models) (index : ℕ) :
    Except String (List ℚ) :=
  match models with
  | .byName d =>
    match List.lookup "fatigue" d with
    | some (Sum.inl m) => .ok m.default_initial_guess
    | some (Sum.inr _) => .error "AttributeError: list has no attribute default_initial_guess"
    | none => .error "KeyError: fatigue"
  | .flat _ => .error "TypeError: list indices must be integers"

/-- `MultiFatigueInterface._dynamics_per_suffix`:
`self.models["fatigue"].dynamics(dxdt, nlp, index, states, controls)` — the
`suffix` argument is not consulted. -/
def interface_dynamics_per_suffix (models : Models) (dxdt : List ℚ)
    (suffix : String) (nlp : ℕ) (index : ℕ) (states controls : List ℚ) :
    Except String (List ℚ) :=
  match models with
  | .byName d =>
    match List.lookup "fatigue" d with
    | some (Sum.inl m) => .ok (m.dynamics dxdt nlp index states controls)
    | some (Sum.inr _) => .error "AttributeError: list has no attribute dynamics"
    | none => .error "KeyError: fatigue"
  | .flat _ => .error "TypeError: list indices must be integers"

/-- Modelled from the spec: the concrete multi-channel aggregator variants
(outside `src/`) delegate default bounds per sub-channel index, resolving
the index to a channel through `_convert_to_models_key` (the mapping's
declared key order when the storage is name-keyed, identity when it is a
flat list). -/
def aggregator_default_bounds (models : Models) (index : ℕ)
    (variable_type : VariableType) : Except String (List ℚ) := do
  let k ← convert_to_models_key models index
  match models, k with
  | .byName d, Sum.inl key =>
    match List.lookup key d with
    | some (Sum.inl m) => .ok (m.default_bounds variable_type)
    | some (Sum.inr _) => .error "AttributeError: list has no attribute default_bounds"
    | none => .error "KeyError"
  | .flat l, Sum.inr i =>
    match l.get? i with
    | some m => .ok (m.default_bounds variable_type)
    | none => .error "IndexError: list index out of range"
  | _, _ => .error "TypeError"

/-- Modelled from the spec: the concrete aggregator variants' default
initial guess delegation, through the same `_convert_to_models_key`
indirection. -/
def aggregator_default_initial_guess (models : Models) (index : ℕ) :
    Except String (List ℚ) := do
  let k ← convert_to_models_key models index
  match models, k with
  | .byName d, Sum.inl key =>
    match List.lookup key d with
    | some (Sum.inl m) => .ok m.default_initial_guess
    | some (Sum.inr _) => .error "AttributeError: list has no attribute default_initial_guess"
    | none => .error "KeyError"
  | .flat l, Sum.inr i =>
    match l.get? i with
    | some m => .ok m.default_initial_guess
    | none => .error "IndexError: list index out of range"
  | _, _ => .error "TypeError"

/-- Modelled from the spec: the concrete aggregator variants' per-channel
dynamics delegation, through the same `_convert_to_models_key`
indirection. -/
def aggregator_channel_dynamics (models : Models) (index : ℕ)
    (dxdt : List ℚ) (nlp : ℕ) (states controls : List ℚ) :
    Except String (List ℚ) := do
  let k ← convert_to_models_key models index
  match models, k with
  | .byName d, Sum.inl key =>
    match List.lookup key d with
    | some (Sum.inl m) => .ok (m.dynamics dxdt nlp index states controls)
    | some (Sum.inr _) => .error "AttributeError: list has no attribute dynamics"
    | none => .error "KeyError"
  | .flat l, Sum.inr i =>
    match l.get? i with
    | some m => .ok (m.dynamics dxdt nlp index states controls)
    | none => .error "IndexError: list index out of range"
  | _, _ => .error "TypeError"

/-- Modelled from the spec: the option wrapper stored in a
`FatigueUniqueList` slot; its `models` attribute holds the registered
aggregator unchanged (in `MultiFatigueModel.__init__` the wrapper's
abstract `suffix()` is falsy, so the given aggregator is stored in
`self.models` as is). -/
structure AggOption where
  models : MFAggregator
deriving Inhabited

/-- Modelled from the spec: `UniquePerPhaseOptionList` (`misc/options.py`
is not under `src/`): `options` is a list of slots, one per phase, each
slot a Python list holding at most one registered option ("one slot per
phase, at most one aggregator registered per phase per family"). -/
structure FatigueUniqueList where
  suffix : List String
  options : List (List AggOption)

/-- `FatigueUniqueList.__next__` on one slot:
`self.options[idx][0] if self.options[idx] else None`. -/
def FatigueUniqueList.next_elt (slot : List AggOption) : Option AggOption :=
  slot.head?

/-- The enumerated fold of `FatigueUniqueList.dynamics`: for each slot in
order, `dxdt = elt.models.dynamics(dxdt, nlp, i, states, controls)`; a slot
whose `__next__` yields `None` makes `elt.models` an attribute access on
`None`, a raise. -/
def fatigue_dynamics_fold : List (List AggOption) → ℕ → List ℚ → ℕ →
    List ℚ → List ℚ → Except String (List ℚ)
  | [], _, dxdt, _, _, _ => .ok dxdt
  | slot :: rest, i, dxdt, nlp, states, controls =>
    match FatigueUniqueList.next_elt slot with
    | some elt =>
      fatigue_dynamics_fold rest (i + 1)
        (elt.models.dynamics dxdt nlp i states controls) nlp states controls
    | none => .error "AttributeError: NoneType object has no attribute models"

/-- `FatigueUniqueList.dynamics`: fold every slot's registered aggregator
into the running derivative expression, the slot position as channel
index. -/
def FatigueUniqueList.dynamics (l : FatigueUniqueList) (dxdt : List ℚ)
    (nlp : ℕ) (states controls : List ℚ) : Except String (List ℚ) :=
  fatigue_dynamics_fold l.options 0 dxdt nlp states controls

/-!
Concrete fixtures used by the evaluation theorems and witnesses.
-/

/-- A rigid-body model stub: the geometric queries are unused by the
scenarios below. -/
def sampleModel : BiorbdModel :=
  { nbMarkers := 0, nbSegment := 0, nbRTs := 0,
    marker := fun _ _ => default,
    alignRTEuler := fun _ _ _ => default,
    markerInSegmentFrame := fun _ _ _ => default }

/-- An empty constraint-vector/bounds state. -/
def emptyAcc : OCPAcc := { g := [], g_bounds := { min := [], max := [] } }

/-- A single phase with `nx = 4`, no shooting interval, and the one node
state `[0, 0, 1, 1]` (the cyclic-scenario initial state of the spec). -/
def cyclicPhase : NLPhase :=
  { ns := 0, nx := 4, model := sampleModel, reduceLen := 4,
    expandMap := id, X := [[0, 0, 1, 1]], U := [],
    dynamics := fun x _ => x, contactForces := fun _ _ => [] }

/-- The cyclic scenario with one shooting interval: first node
`[0, 0, 1, 1]`, final node `[a, 0, 1, 1]` (components 1..3 equal
`[0, 1, 1]`), identity integration. -/
def cyclicPhaseC3 (a : ℚ) : NLPhase :=
  { cyclicPhase with ns := 1, X := [[0, 0, 1, 1], [a, 0, 1, 1]], U := [[0]] }

/-- A trivial phase of state size `n`, for the mismatched-dimension
scenario. -/
def phaseNx (n : ℕ) : NLPhase :=
  { cyclicPhase with nx := n, ns := 0, X := [List.replicate n 0] }

/-- A phase whose contact-force evaluation returns `[2, 3]` at every node:
component 0 is the normal force, component 1 the tangential force. -/
def contactPhase : NLPhase :=
  { cyclicPhase with contactForces := fun _ _ => [2, 3] }

/-- A concrete fatigue model with recognizable outputs. -/
def sampleFModel : FModel :=
  { default_bounds := fun _ => [0, 1],
    default_initial_guess := [0],
    dynamics := fun dxdt _ _ _ _ => dxdt }

/-- Channel-a fatigue model of the two-channel aggregator scenario. -/
def fmA : FModel :=
  { default_bounds := fun _ => [1],
    default_initial_guess := [10],
    dynamics := fun dxdt _ _ _ _ => 1 :: dxdt }

/-- Channel-b fatigue model of the two-channel aggregator scenario. -/
def fmB : FModel :=
  { default_bounds := fun _ => [2],
    default_initial_guess := [20],
    dynamics := fun dxdt _ _ _ _ => 2 :: dxdt }

/-- The storage of a `MultiFatigueInterface` built over one model:
`{"fatigue": sampleFModel}`. -/
def interfaceModels : Models := multi_fatigue_models interface_suffix [sampleFModel]

/-- A family registry list with exactly one phase slot, that slot empty
(no aggregator registered for the phase). -/
def emptySlotList : FatigueUniqueList := { suffix := ["fatigue"], options := [[]] }

/-- The recursive reference shape of `mk_model_tp` when every key is fresh:
each suffix key paired with its positionally matching model. -/
def mk_model_tp_spec (suffix : List String) (i : ℕ) (model : List FModel) :
    List (String × ModelsVal) :=
  match suffix with
  | [] => []
  | key :: rest => (key, Sum.inl (model.getD i default)) :: mk_model_tp_spec rest (i + 1) model

/-!
Theorems.
-/

/-- C1: the length invariant `len(g) == len(g_bounds.min) == len(g_bounds.max)`
fails on the code: with the cyclic flag on, for a one-phase problem with
`nx = 4`, `ns = 0` and node state `[0, 0, 1, 1]`, the cyclic pass of
`continuity_constraint` appends the 3-component residual
`X[-1][1:] - X[0][1:]` but runs its bound loop `range(nx)` = 4 times, so
the call completes without raising and leaves `len(g) = 3` while
`len(g_bounds.min) = len(g_bounds.max) = 4`. -/
theorem C1_cyclic_pass_desyncs_bounds :
    (continuity_constraint { nlp := [cyclicPhase], is_cyclic_constraint := true } emptyAcc).2
      = none ∧
    (continuity_constraint { nlp := [cyclicPhase], is_cyclic_constraint := true } emptyAcc).1.g.length
      = 3 ∧
    (continuity_constraint { nlp := [cyclicPhase], is_cyclic_constraint := true } emptyAcc).1.g_bounds.min.length
      = 4 ∧
    (continuity_constraint { nlp := [cyclicPhase], is_cyclic_constraint := true } emptyAcc).1.g_bounds.max.length
      = 4 := by
  refine ⟨rfl, rfl, rfl, rfl⟩

/-- C2: evaluating `__non_slipping` at a node where the contact-force
vector is `[2, 3]`, with normal index 0, tangential index 1 and `μ = 1`:
because the tangential accumulation loop adds into the normal accumulator,
both appended residuals evaluate to `μ·(N + T) = 5`, instead of the
claimed `μ·N + T = 5` and `μ·N − T = −1`; the bound pairs are `(0, +∞)`
as claimed. -/
theorem C2_non_slipping_eval :
    (non_slipping emptyAcc contactPhase [[0]] [[0]] [0] [1] 1).g = [5, 5] ∧
    (non_slipping emptyAcc contactPhase [[0]] [[0]] [0] [1] 1).g ≠ [5, -1] ∧
    (non_slipping emptyAcc contactPhase [[0]] [[0]] [0] [1] 1).g_bounds.min
      = [Bnd.fin 0, Bnd.fin 0] ∧
    (non_slipping emptyAcc contactPhase [[0]] [[0]] [0] [1] 1).g_bounds.max
      = [Bnd.posInf, Bnd.posInf] := by
  have h1 : (non_slipping emptyAcc contactPhase [[0]] [[0]] [0] [1] 1).g = [5, 5] := by
    show [1 * ((2 + 0) + (3 + 0)) + 0, 1 * ((2 + 0) + (3 + 0)) - 0] = ([5, 5] : List ℚ)
    norm_num
  refine ⟨h1, ?_, rfl, rfl⟩
  rw [h1]
  norm_num

/-- C3: with the cyclic flag on, for a one-phase problem whose first node
state is `[0, 0, 1, 1]` and whose final node state is `[a, 0, 1, 1]`
(components 1..3 equal `[0, 1, 1]`), the cyclic pass of
`continuity_constraint` appends `X[-1][1:] - X[0][1:]`: after the four
intra-phase residuals the appended cyclic residual block is exactly
`[0, 0, 0]`, for every value of the excluded first component `a`. -/
theorem C3_cyclic_residual_block (a : ℚ) :
    (continuity_constraint { nlp := [cyclicPhaseC3 a], is_cyclic_constraint := true } emptyAcc).2
      = none ∧
    (continuity_constraint { nlp := [cyclicPhaseC3 a], is_cyclic_constraint := true } emptyAcc).1.g
      = [0 - a, 0, 0, 0] ++ [0, 0, 0] := by
  constructor
  · rfl
  · show [0 - a, 0 - 0, 1 - 1, 1 - 1] ++ [(0 : ℚ) - 0, 1 - 1, 1 - 1]
      = [0 - a, 0, 0, 0] ++ [0, 0, 0]
    norm_num

/-- C4 counterexample: a family's per-phase list whose single phase slot is
empty: `FatigueUniqueList.dynamics` does not return the derivative
unchanged — `__next__` yields `None` for the empty slot and the loop body's
`elt.models` attribute access raises. -/
theorem C4_empty_slot_raises :
    FatigueUniqueList.dynamics emptySlotList [1, 2] 0 [] []
      = .error "AttributeError: NoneType object has no attribute models" := by
  rfl

/-- C4 amended: calling `dynamics()` when the family's per-phase list holds
no slot at all is a no-op (the fold returns the derivative expression
unchanged, no error); but when a phase's slot exists and is empty, the call
raises an attribute error on the `None` yielded by `__next__` instead of
being a no-op. -/
theorem C4_no_slot_noop_empty_slot_raises (suffix : List String)
    (dxdt : List ℚ) (nlp : ℕ) (states controls : List ℚ)
    (rest : List (List AggOption)) :
    FatigueUniqueList.dynamics { suffix := suffix, options := [] } dxdt nlp states controls
      = .ok dxdt ∧
    FatigueUniqueList.dynamics { suffix := suffix, options := [] :: rest } dxdt nlp states controls
      = .error "AttributeError: NoneType object has no attribute models" := by
  exact ⟨rfl, rfl⟩

/-- C5 counterexample: a `MultiFatigueInterface` aggregator declares one
channel (`suffix() = ("fatigue",)`), yet `default_bounds` and
`default_initial_guess` called with channel index 5 do not raise: the index
argument is never consulted and the single channel's values are returned. -/
theorem C5_interface_ignores_index :
    interface_default_bounds interfaceModels 5 VariableType.STATES = .ok [0, 1] ∧
    interface_default_initial_guess interfaceModels 5 = .ok [0] := by
  exact ⟨rfl, rfl⟩

/-- C7: dispatching a `PROPORTIONAL_CONTROL` descriptor whose node selector
is the terminal node — `Instant.END`, or the bare node index equal to the
phase's shooting-interval count — raises
`RuntimeError("No control u at last node")` and leaves the constraint
vector and both bound sequences untouched (the returned state is exactly
the incoming `ocp`). -/
theorem C7_proportional_control_end_rejected (ocp : OCPAcc) (nlp : NLPhase)
    (first_dof second_dof : ℕ) (coef : PyVal) (instant : Instant)
    (h : instant = Instant.END ∨ instant = Instant.node nlp.ns) :
    add_constraint_dispatch ocp nlp
        (Descriptor.PROPORTIONAL_CONTROL instant first_dof second_dof coef)
      = (ocp, some "No control u at last node") := by
  have hl : isLastNode instant nlp.ns = true := by
    rcases h with h | h <;> subst h <;> simp [isLastNode]
  simp [add_constraint_dispatch, hl]

/-- C7 witness: the concrete END-selector rejection. -/
theorem C7_witness :
    add_constraint_dispatch emptyAcc cyclicPhase
        (Descriptor.PROPORTIONAL_CONTROL Instant.END 0 1 (PyVal.int 2))
      = (emptyAcc, some "No control u at last node") :=
  C7_proportional_control_end_rejected emptyAcc cyclicPhase 0 1 (PyVal.int 2)
    Instant.END (Or.inl rfl)

/-- C9: for a two-phase problem whose phases have different state counts,
`continuity_constraint` raises
`RuntimeError("Phase constraints without same nx is not supported yet")`
during the inter-phase pass, and the state at the raise is exactly the
state after the intra-phase passes: nothing was appended for the failing
phase pair. -/
theorem C9_interphase_dim_mismatch_raises (a b : NLPhase) (cyc : Bool)
    (acc : OCPAcc) (h : a.nx ≠ b.nx) :
    continuity_constraint { nlp := [a, b], is_cyclic_constraint := cyc } acc
      = (intra_phase_continuity b (intra_phase_continuity a acc),
         some "Phase constraints without same nx is not supported yet") := by
  unfold continuity_constraint
  simp only [List.foldl]
  rw [inter_phase_continuity, if_pos h]

/-- C9 witness: phases with `nx = 1` and `nx = 2`, no shooting intervals,
so the error arrives with the constraint vector still empty. -/
theorem C9_witness :
    continuity_constraint { nlp := [phaseNx 1, phaseNx 2], is_cyclic_constraint := false } emptyAcc
      = (emptyAcc, some "Phase constraints without same nx is not supported yet") :=
  C9_interphase_dim_mismatch_raises (phaseNx 1) (phaseNx 2) false emptyAcc (by decide)

/-- The success path of `__proportional_variable` as an explicit append:
one residual `v[first_dof] - c * v[second_dof]` and one `(0, 0)` bound pair
per column. -/
theorem proportional_fold (nlp : NLPhase) (fd sd : ℕ) (c : ℚ) :
    ∀ (UX : List (List ℚ)) (ocp : OCPAcc),
      (UX.foldl (fun o v =>
        let v' := nlp.expandMap v
        { g := o.g ++ [v'.getD fd 0 - c * v'.getD sd 0],
          g_bounds := { min := o.g_bounds.min ++ [Bnd.fin 0],
                        max := o.g_bounds.max ++ [Bnd.fin 0] } }) ocp)
      = { g := ocp.g ++ UX.map (fun v =>
              (nlp.expandMap v).getD fd 0 - c * (nlp.expandMap v).getD sd 0),
          g_bounds := { min := ocp.g_bounds.min ++ List.replicate UX.length (Bnd.fin 0),
                        max := ocp.g_bounds.max ++ List.replicate UX.length (Bnd.fin 0) } } := by
  intro UX
  induction UX with
  | nil => intro ocp; simp
  | cons v rest ih =>
    intro ocp
    rw [List.foldl_cons, ih]
    simp [List.replicate_succ, List.append_assoc]

/-- C10: a Python `bool` passes the `isinstance(coef, (int, float))` check
of `__proportional_variable` (bool is a subtype of int), so with
`coef = True` and in-range DOF indices the builder raises nothing and
appends, per column, the residual `v[first_dof] - 1 * v[second_dof]` with
one `(0, 0)` bound pair. -/
theorem C10_bool_coef_accepted (ocp : OCPAcc) (nlp : NLPhase)
    (UX : List (List ℚ)) (first_dof second_dof : ℕ)
    (h : check_idx "dof" [first_dof, second_dof] (rows UX) = none) :
    (PyVal.bool true).isinstance_int_float = true ∧
    proportional_variable ocp nlp UX first_dof second_dof (PyVal.bool true)
      = ({ g := ocp.g ++ UX.map (fun v =>
               (nlp.expandMap v).getD first_dof 0 - 1 * (nlp.expandMap v).getD second_dof 0),
           g_bounds := { min := ocp.g_bounds.min ++ List.replicate UX.length (Bnd.fin 0),
                         max := ocp.g_bounds.max ++ List.replicate UX.length (Bnd.fin 0) } },
         none) := by
  refine ⟨rfl, ?_⟩
  unfold proportional_variable
  rw [h]
  rw [if_neg (fun hc => hc rfl)]
  rw [proportional_fold nlp first_dof second_dof (PyVal.bool true).toRat UX ocp]
  simp [PyVal.toRat]

/-- C10 witness: `coef = True` on a single column `[3, 4, 0, 0]` with DOFs
0 and 1 yields the residual `3 - 1·4 = -1` and no error. -/
theorem C10_witness :
    (proportional_variable emptyAcc cyclicPhase [[3, 4, 0, 0]] 0 1 (PyVal.bool true)).2
      = none ∧
    (proportional_variable emptyAcc cyclicPhase [[3, 4, 0, 0]] 0 1 (PyVal.bool true)).1.g
      = [-1] := by
  have h := C10_bool_coef_accepted emptyAcc cyclicPhase [[3, 4, 0, 0]] 0 1 (by decide)
  rw [h.2]
  refine ⟨rfl, ?_⟩
  show [(3 : ℚ) - 1 * 4] = [-1]
  norm_num

/-- A fold that appends one residual scalar and one bound pair per index
equals the corresponding bulk append. -/
theorem push_fold (f : ℕ → ℚ) (lo hi : Bnd) :
    ∀ (n : ℕ) (ocp : OCPAcc),
      (List.range n).foldl (fun o i =>
          { g := o.g ++ [f i],
            g_bounds := { min := o.g_bounds.min ++ [lo],
                          max := o.g_bounds.max ++ [hi] } }) ocp
        = { g := ocp.g ++ (List.range n).map f,
            g_bounds := { min := ocp.g_bounds.min ++ List.replicate n lo,
                          max := ocp.g_bounds.max ++ List.replicate n hi } } := by
  intro n
  induction n with
  | zero => intro ocp; simp
  | succ n ih =>
    intro ocp
    rw [List.range_succ, List.foldl_append, ih]
    simp [List.replicate_succ', List.append_assoc, List.range_succ]

/-- Closed form of the GREATER_THAN branch of
`__contact_force_inequality`. -/
theorem contact_force_greater_eq (ocp : OCPAcc) (nlp : NLPhase)
    (X U : List (List ℚ)) (idx : ℕ) (b : ℚ) :
    contact_force_inequality ocp nlp X U "GREATER_THAN" idx b
      = { g := ocp.g ++ (List.range U.length).map
              (fun i => (nlp.contactForces (X.getD i []) (U.getD i [])).getD idx 0),
          g_bounds := { min := ocp.g_bounds.min ++ List.replicate U.length (Bnd.fin b),
                        max := ocp.g_bounds.max ++ List.replicate U.length Bnd.posInf } } :=
  push_fold (fun i => (nlp.contactForces (X.getD i []) (U.getD i [])).getD idx 0)
    (Bnd.fin b) Bnd.posInf U.length ocp

/-- Closed form of the LESSER_THAN branch of
`__contact_force_inequality`. -/
theorem contact_force_lesser_eq (ocp : OCPAcc) (nlp : NLPhase)
    (X U : List (List ℚ)) (idx : ℕ) (b : ℚ) :
    contact_force_inequality ocp nlp X U "LESSER_THAN" idx b
      = { g := ocp.g ++ (List.range U.length).map
              (fun i => (nlp.contactForces (X.getD i []) (U.getD i [])).getD idx 0),
          g_bounds := { min := ocp.g_bounds.min ++ List.replicate U.length Bnd.negInf,
                        max := ocp.g_bounds.max ++ List.replicate U.length (Bnd.fin b) } } :=
  push_fold (fun i => (nlp.contactForces (X.getD i []) (U.getD i [])).getD idx 0)
    Bnd.negInf (Bnd.fin b) U.length ocp

/-- C8: for every node the selector resolved to, the contact-force-greater
builder with boundary `b` appends the bound pair `(b, +∞)` and the
contact-force-lesser builder with boundary `b` appends the bound pair
`(-∞, b)`, one pair (and one residual) per node. -/
theorem C8_contact_force_bound_direction (ocp : OCPAcc) (nlp : NLPhase)
    (X U : List (List ℚ)) (idx : ℕ) (b : ℚ) :
    ((contact_force_inequality ocp nlp X U "GREATER_THAN" idx b).g_bounds.min
       = ocp.g_bounds.min ++ List.replicate U.length (Bnd.fin b) ∧
     (contact_force_inequality ocp nlp X U "GREATER_THAN" idx b).g_bounds.max
       = ocp.g_bounds.max ++ List.replicate U.length Bnd.posInf ∧
     (contact_force_inequality ocp nlp X U "GREATER_THAN" idx b).g.length
       = ocp.g.length + U.length) ∧
    ((contact_force_inequality ocp nlp X U "LESSER_THAN" idx b).g_bounds.min
       = ocp.g_bounds.min ++ List.replicate U.length Bnd.negInf ∧
     (contact_force_inequality ocp nlp X U "LESSER_THAN" idx b).g_bounds.max
       = ocp.g_bounds.max ++ List.replicate U.length (Bnd.fin b) ∧
     (contact_force_inequality ocp nlp X U "LESSER_THAN" idx b).g.length
       = ocp.g.length + U.length) := by
  rw [contact_force_greater_eq, contact_force_lesser_eq]
  refine ⟨⟨rfl, rfl, by simp⟩, ⟨rfl, rfl, by simp⟩⟩

/-- C5 amended: an out-of-range channel index raises only on the paths
that go through `_convert_to_models_key` — for name-keyed storage the key
list lookup `list(self.models.keys())[item]` raises `IndexError` (and the
generic delegators propagate it), and for flat storage the delegators'
element access raises `IndexError` — while `MultiFatigueInterface`'s
`default_bounds` and `default_initial_guess` never consult the index and
return the single `"fatigue"` channel's values without raising. -/
theorem C5_out_of_range_index (d : List (String × ModelsVal))
    (l : List FModel) (item : ℕ) (m : FModel) (vt : VariableType)
    (hd : d.length ≤ item) (hl : l.length ≤ item) :
    convert_to_models_key (Models.byName d) item
      = .error "IndexError: list index out of range" ∧
    aggregator_default_bounds (Models.byName d) item vt
      = .error "IndexError: list index out of range" ∧
    aggregator_default_bounds (Models.flat l) item vt
      = .error "IndexError: list index out of range" ∧
    interface_default_bounds (multi_fatigue_models interface_suffix [m]) item vt
      = .ok (m.default_bounds vt) ∧
    interface_default_initial_guess (multi_fatigue_models interface_suffix [m]) item
      = .ok m.default_initial_guess := by
  have hd' : d[item]? = none := List.getElem?_eq_none hd
  have hl' : l[item]? = none := List.getElem?_eq_none hl
  have hk : convert_to_models_key (Models.byName d) item
      = .error "IndexError: list index out of range" := by
    simp [convert_to_models_key, hd']
  refine ⟨hk, ?_, ?_, rfl, rfl⟩
  · simp only [aggregator_default_bounds, hk]
    rfl
  · have hl2 : l.get? item = none := List.get?_eq_none.mpr hl
    simp only [aggregator_default_bounds]
    show (match l.get? item with
          | some m => Except.ok (m.default_bounds vt)
          | none => Except.error "IndexError: list index out of range")
        = Except.error "IndexError: list index out of range"
    rw [hl2]

/-- C5 amended witness: empty storages with channel index 5, and the
interface over `sampleFModel`. -/
theorem C5_out_of_range_index_witness :
    convert_to_models_key (Models.byName []) 5
      = .error "IndexError: list index out of range" ∧
    aggregator_default_bounds (Models.byName []) 5 VariableType.STATES
      = .error "IndexError: list index out of range" ∧
    aggregator_default_bounds (Models.flat []) 5 VariableType.STATES
      = .error "IndexError: list index out of range" ∧
    interface_default_bounds (multi_fatigue_models interface_suffix [sampleFModel]) 5
        VariableType.STATES
      = .ok [0, 1] ∧
    interface_default_initial_guess (multi_fatigue_models interface_suffix [sampleFModel]) 5
      = .ok [0] :=
  C5_out_of_range_index [] [] 5 sampleFModel VariableType.STATES
    (by decide) (by decide)

/-- Python dict assignment of a key absent from the dict appends it. -/
theorem dict_insert_fresh (d : List (String × ModelsVal)) (key : String)
    (v : ModelsVal) (h : ∀ p ∈ d, p.1 ≠ key) :
    dict_insert d key v = d ++ [(key, v)] := by
  have hany : (d.any fun p => p.1 == key) = false := by
    simp only [List.any_eq_false, beq_iff_eq]
    exact h
  simp [dict_insert, hany]

/-- With pairwise-distinct, non-empty keys that are all fresh for the
accumulator, the `__init__` construction loop is a plain append of one
`(key, model[i])` entry per suffix. -/
theorem mk_model_tp_fresh (suffix : List String) :
    ∀ (d : List (String × ModelsVal)) (i : ℕ) (model : List FModel),
      suffix.Nodup → (∀ s ∈ suffix, s ≠ "") → (∀ p ∈ d, p.1 ∉ suffix) →
      mk_model_tp d suffix i model = d ++ mk_model_tp_spec suffix i model := by
  induction suffix with
  | nil => intro d i model _ _ _; simp [mk_model_tp, mk_model_tp_spec]
  | cons key rest ih =>
    intro d i model hnd hne hfresh
    have hkey : key ≠ "" := hne key (List.mem_cons_self key rest)
    have hfreshkey : ∀ p ∈ d, p.1 ≠ key := fun p hp hpk =>
      hfresh p hp (hpk ▸ List.mem_cons_self key rest)
    simp only [mk_model_tp]
    rw [if_pos hkey, dict_insert_fresh d key _ hfreshkey,
      ih (d ++ [(key, Sum.inl (model.getD i default))]) (i + 1) model
        (List.nodup_cons.mp hnd).2
        (fun s hs => hne s (List.mem_cons_of_mem key hs))
        ?_]
    · simp only [mk_model_tp_spec]
      simp [List.append_assoc]
    · intro p hp hmem
      rcases List.mem_append.mp hp with hpd | hpk
      · exact hfresh p hpd (List.mem_cons_of_mem key hmem)
      · have hpe : p = (key, Sum.inl (model.getD i default)) := by simpa using hpk
        rw [hpe] at hmem
        exact (List.nodup_cons.mp hnd).1 hmem

/-- The key order of the reference construction is exactly the suffix
order. -/
theorem mk_model_tp_spec_keys (suffix : List String) :
    ∀ (i : ℕ) (model : List FModel),
      (mk_model_tp_spec suffix i model).map Prod.fst = suffix := by
  induction suffix with
  | nil => intro i model; rfl
  | cons key rest ih => intro i model; simp only [mk_model_tp_spec, List.map_cons, ih]

/-- Looking up the `j`-th suffix key in the reference construction finds
the positionally matching model. -/
theorem mk_model_tp_spec_lookup (suffix : List String) :
    ∀ (i j : ℕ) (model : List FModel), suffix.Nodup → j < suffix.length →
      List.lookup (suffix.getD j "") (mk_model_tp_spec suffix i model)
        = some (Sum.inl (model.getD (i + j) default)) := by
  induction suffix with
  | nil => intro i j model _ hj; simp at hj
  | cons key rest ih =>
    intro i j model hnd hj
    cases j with
    | zero =>
      simp only [mk_model_tp_spec]
      show List.lookup key ((key, Sum.inl (model.getD i default)) :: mk_model_tp_spec rest (i + 1) model)
        = some (Sum.inl (model.getD (i + 0) default))
      simp
    | succ j =>
      have hkey : key ∉ rest := (List.nodup_cons.mp hnd).1
      have hjlt : j < rest.length := by simpa using hj
      have hmem : rest.getD j "" ∈ rest := by
        rw [List.getD_eq_getElem _ _ hjlt]
        exact List.getElem_mem hjlt
      have hne2 : (rest.getD j "" == key) = false := by
        rw [beq_eq_false_iff_ne]
        intro hEq
        exact hkey (hEq ▸ hmem)
      show List.lookup (rest.getD j "")
          ((key, Sum.inl (model.getD i default)) :: mk_model_tp_spec rest (i + 1) model)
        = some (Sum.inl (model.getD (i + (j + 1)) default))
      rw [List.lookup_cons]
      rw [hne2]
      rw [ih (i + 1) j model (List.nodup_cons.mp hnd).2 hjlt]
      rw [show i + 1 + j = i + (j + 1) by omega]

/-- C6: for an aggregator built over pairwise-distinct non-empty channel
names, channel index `j` always resolves through `_convert_to_models_key`
to the `j`-th suffix name — the key order of the name-keyed `models` dict
is the fixed `suffix()` order — and the bounds, initial-guess and dynamics
delegations all reach the same positionally matching model; with flat-list
storage the conversion is the identity.  All reads are of the immutable
storage, so the resolution is the same regardless of the order in which
the calls are made. -/
theorem C6_channel_index_stability (suffix : List String) (model : List FModel)
    (j : ℕ) (vt : VariableType) (dxdt : List ℚ) (nlp : ℕ)
    (states controls : List ℚ)
    (hnd : suffix.Nodup) (hne : ∀ s ∈ suffix, s ≠ "") (hj : j < suffix.length)
    (hlen : suffix.length ≤ model.length) :
    convert_to_models_key (multi_fatigue_models suffix model) j
      = .ok (Sum.inl (suffix.getD j "")) ∧
    aggregator_default_bounds (multi_fatigue_models suffix model) j vt
      = .ok ((model.getD j default).default_bounds vt) ∧
    aggregator_default_initial_guess (multi_fatigue_models suffix model) j
      = .ok (model.getD j default).default_initial_guess ∧
    aggregator_channel_dynamics (multi_fatigue_models suffix model) j dxdt nlp states controls
      = .ok ((model.getD j default).dynamics dxdt nlp j states controls) ∧
    convert_to_models_key (Models.flat model) j = .ok (Sum.inr j) := by
  have hsne : suffix ≠ [] := by
    intro h
    rw [h] at hj
    simp at hj
  have hM : multi_fatigue_models suffix model
      = Models.byName (mk_model_tp_spec suffix 0 model) := by
    unfold multi_fatigue_models
    rw [if_pos hsne, mk_model_tp_fresh suffix [] 0 model hnd hne (by simp)]
    rfl
  have hget : ((mk_model_tp_spec suffix 0 model).map Prod.fst).get? j
      = some (suffix.getD j "") := by
    rw [mk_model_tp_spec_keys, List.getD_eq_getElem _ _ hj, List.get?_eq_getElem?]
    exact List.getElem?_eq_getElem hj
  have hconvM : convert_to_models_key (Models.byName (mk_model_tp_spec suffix 0 model)) j
      = .ok (Sum.inl (suffix.getD j "")) := by
    simp only [convert_to_models_key]
    rw [hget]
  have hlook : List.lookup (suffix.getD j "") (mk_model_tp_spec suffix 0 model)
      = some (Sum.inl (model.getD j default)) := by
    simpa using mk_model_tp_spec_lookup suffix 0 j model hnd hj
  refine ⟨by rw [hM]; exact hconvM, ?_, ?_, ?_, rfl⟩
  · rw [hM]
    simp only [aggregator_default_bounds, hconvM]
    show (match List.lookup (suffix.getD j "") (mk_model_tp_spec suffix 0 model) with
          | some (Sum.inl m) => Except.ok (m.default_bounds vt)
          | some (Sum.inr _) => Except.error "AttributeError: list has no attribute default_bounds"
          | none => Except.error "KeyError")
        = Except.ok ((model.getD j default).default_bounds vt)
    rw [hlook]
  · rw [hM]
    simp only [aggregator_default_initial_guess, hconvM]
    show (match List.lookup (suffix.getD j "") (mk_model_tp_spec suffix 0 model) with
          | some (Sum.inl m) => Except.ok m.default_initial_guess
          | some (Sum.inr _) => Except.error "AttributeError: list has no attribute default_initial_guess"
          | none => Except.error "KeyError")
        = Except.ok (model.getD j default).default_initial_guess
    rw [hlook]
  · rw [hM]
    simp only [aggregator_channel_dynamics, hconvM]
    show (match List.lookup (suffix.getD j "") (mk_model_tp_spec suffix 0 model) with
          | some (Sum.inl m) => Except.ok (m.dynamics dxdt nlp j states controls)
          | some (Sum.inr _) => Except.error "AttributeError: list has no attribute dynamics"
          | none => Except.error "KeyError")
        = Except.ok ((model.getD j default).dynamics dxdt nlp j states controls)
    rw [hlook]

/-- C6 witness: channels `["a", "b"]`; index 0 resolves to channel `"a"`
in the key conversion and in all three delegations. -/
theorem C6_witness :
    convert_to_models_key (multi_fatigue_models ["a", "b"] [fmA, fmB]) 0
      = .ok (Sum.inl "a") ∧
    aggregator_default_bounds (multi_fatigue_models ["a", "b"] [fmA, fmB]) 0
        VariableType.STATES
      = .ok [1] ∧
    aggregator_default_initial_guess (multi_fatigue_models ["a", "b"] [fmA, fmB]) 0
      = .ok [10] ∧
    aggregator_channel_dynamics (multi_fatigue_models ["a", "b"] [fmA, fmB]) 0 [9] 0 [] []
      = .ok [1, 9] ∧
    convert_to_models_key (Models.flat [fmA, fmB]) 0 = .ok (Sum.inr 0) := by
  have h := C6_channel_index_stability ["a", "b"] [fmA, fmB] 0 VariableType.STATES
    [9] 0 [] [] (by decide) (by decide) (by decide) (by decide)
  exact ⟨h.1, h.2.1, h.2.2.1, h.2.2.2.1, h.2.2.2.2⟩

end BioptimSpec
